import Mathlib

/-!
Shallow embedding of the privaxy admin web GUI server
(src/privaxy/src/server/web_gui/mod.rs) and of the web frontend filter-list
search component (src/web_frontend/src/filterlists.rs), with theorems
settling the frozen claims about them.
-/

/-! ### HTTP-level vocabulary for the route table of create_routes -/

/-- HTTP methods used by the admin API routes. -/
inductive Method
  | GET
  | PUT
  | POST
  | DELETE
  | OPTIONS
deriving DecidableEq, Repr

/-- Arguments that the warp filter chain supplies to a route handler.
Each constructor corresponds to one combinator in create_routes:
websocket is the extraction of warp.ws, bodyJson is warp.body.json,
and the with_* constructors are the helper filters at the bottom of
mod.rs that clone a captured resource into the handler.  The two
*Clone constructors record the per-connection clone made inside the
map closure of the events and statistics routes, and caCertificatePem
records the PEM string captured by the certificate route closure. -/
inductive HandlerArg
  | websocket
  | eventsSenderClone
  | statisticsStoreClone
  | bodyJson
  | httpClient
  | configurationUpdaterSender
  | configurationSaveLock
  | blockingDisabledStore
  | localExclusionsStore
  | caCertificatePem
deriving DecidableEq, Repr

/-- The handler a route dispatches to (the and_then target, or the body of
the map closure for the websocket, certificate and options routes). -/
inductive Handler
  | eventsWs
  | statisticsWs
  | getFiltersConfiguration
  | changeFilterStatus
  | addFilter
  | deleteFilter
  | getCustomFilters
  | putCustomFilters
  | getExclusions
  | putExclusions
  | getBlockingEnabled
  | putBlockingEnabled
  | caCertificate
  | optionsEmpty
deriving DecidableEq, Repr

/-- One endpoint of the admin API: its warp path segment, HTTP method,
whether it upgrades the request to a websocket instead of returning an
ordinary body, its handler, and the arguments the filter chain supplies
to that handler, in combinator order. -/
structure Endpoint where
  path : String
  method : Method
  wsUpgrade : Bool
  handler : Handler
  args : List HandlerArg
deriving DecidableEq, Repr

/-- The route table built by create_routes in mod.rs, one entry per
method of each path, in source order.  The warp.ws combinator only
accepts upgradable GET requests, so the two websocket routes are
recorded with method GET. -/
def create_routes : List Endpoint :=
  [ { path := "events", method := .GET, wsUpgrade := true,
      handler := .eventsWs,
      args := [.websocket, .eventsSenderClone] },
    { path := "statistics", method := .GET, wsUpgrade := true,
      handler := .statisticsWs,
      args := [.websocket, .statisticsStoreClone] },
    { path := "filters", method := .GET, wsUpgrade := false,
      handler := .getFiltersConfiguration, args := [] },
    { path := "filters", method := .PUT, wsUpgrade := false,
      handler := .changeFilterStatus,
      args := [.bodyJson, .configurationUpdaterSender, .configurationSaveLock] },
    { path := "filters", method := .POST, wsUpgrade := false,
      handler := .addFilter,
      args := [.bodyJson, .httpClient, .configurationUpdaterSender,
               .configurationSaveLock] },
    { path := "filters", method := .DELETE, wsUpgrade := false,
      handler := .deleteFilter,
      args := [.bodyJson, .configurationUpdaterSender, .configurationSaveLock] },
    { path := "custom-filters", method := .GET, wsUpgrade := false,
      handler := .getCustomFilters, args := [] },
    { path := "custom-filters", method := .PUT, wsUpgrade := false,
      handler := .putCustomFilters,
      args := [.bodyJson, .configurationUpdaterSender, .configurationSaveLock] },
    { path := "exclusions", method := .GET, wsUpgrade := false,
      handler := .getExclusions, args := [] },
    { path := "exclusions", method := .PUT, wsUpgrade := false,
      handler := .putExclusions,
      args := [.bodyJson, .configurationUpdaterSender, .configurationSaveLock,
               .localExclusionsStore] },
    { path := "blocking-enabled", method := .GET, wsUpgrade := false,
      handler := .getBlockingEnabled,
      args := [.blockingDisabledStore] },
    { path := "blocking-enabled", method := .PUT, wsUpgrade := false,
      handler := .putBlockingEnabled,
      args := [.bodyJson, .blockingDisabledStore] },
    { path := "privaxy_ca_certificate.pem", method := .GET, wsUpgrade := false,
      handler := .caCertificate,
      args := [.caCertificatePem] },
    { path := "", method := .OPTIONS, wsUpgrade := false,
      handler := .optionsEmpty, args := [] } ]

/-- Whether an endpoint is one of the mutation-bearing admin API endpoints
the claims enumerate: PUT, POST or DELETE on each of the listed paths. -/
def mutationEndpoint (e : Endpoint) : Bool :=
  e.method != .GET && e.method != .OPTIONS

/-! ### Per-connection websocket upgrade behaviour

The events and statistics routes do not produce an ordinary response
body: their map closures call ws.on_upgrade, handing the upgraded
websocket together with a clone (made inside the closure, hence fresh
for each connection) of the captured subscriber resource to the
telemetry handler.  An invocation is indexed by the connection ordinal
so distinct connections are visibly given distinct clone instances of
the same origin resource. -/

/-- The resource a telemetry websocket handler subscribes through. -/
inductive SubscriberSource
  | eventsSender
  | statisticsStore
deriving DecidableEq, Repr

/-- One upgraded-connection invocation of a telemetry handler: which
handler runs, which resource the clone it received originates from, and
the ordinal of the clone (a fresh clone is made per connection). -/
structure WsInvocation where
  handler : Handler
  origin : SubscriberSource
  cloneId : Nat
deriving DecidableEq, Repr

/-- Behaviour of the events route map closure on its n-th accepted
connection: clone the events sender, upgrade, run events.events. -/
def eventsOnUpgrade (n : Nat) : WsInvocation :=
  { handler := .eventsWs, origin := .eventsSender, cloneId := n }

/-- Behaviour of the statistics route map closure on its n-th accepted
connection: clone the statistics store, upgrade, run statistics.statistics. -/
def statisticsOnUpgrade (n : Nat) : WsInvocation :=
  { handler := .statisticsWs, origin := .statisticsStore, cloneId := n }

/-! ### CORS policy of start_web_gui_server -/

/-- State built by the warp cors builder. -/
structure CorsPolicy where
  allowAnyOrigin : Bool
  allowMethods : List String
  allowHeaders : List String
deriving DecidableEq, Repr

/-- warp.cors: the initial builder state. -/
def warpCors : CorsPolicy :=
  { allowAnyOrigin := false, allowMethods := [], allowHeaders := [] }

/-- The allow_any_origin builder call. -/
def allow_any_origin (c : CorsPolicy) : CorsPolicy :=
  { c with allowAnyOrigin := true }

/-- The allow_methods builder call. -/
def allow_methods (ms : List String) (c : CorsPolicy) : CorsPolicy :=
  { c with allowMethods := ms }

/-- The allow_headers builder call.  The http crate header constants
CONTENT_TYPE, CONTENT_LENGTH and DATE name the lowercase header names. -/
def allow_headers (hs : List String) (c : CorsPolicy) : CorsPolicy :=
  { c with allowHeaders := hs }

/-- The cors policy built in start_web_gui_server, mirroring the builder
chain in mod.rs. -/
def serverCors : CorsPolicy :=
  allow_headers ["content-type", "content-length", "date"]
    (allow_methods ["GET", "PUT", "POST", "DELETE"]
      (allow_any_origin warpCors))

/-- Configuration of the admin API server as assembled by
start_web_gui_server: the composed route table wrapped, as a whole, with
the single cors policy (the with combinator applies it to every route of
the composed filter). -/
structure ServerConfig where
  routes : List Endpoint
  cors : CorsPolicy
deriving DecidableEq, Repr

/-- start_web_gui_server applies serverCors to the full create_routes table. -/
def start_web_gui_server : ServerConfig :=
  { routes := create_routes, cors := serverCors }

/-! ### The shared error-response builder get_error_response -/

/-- One hex digit, lowercase, as serde_json writes control escapes. -/
def hexDigit (n : Nat) : String :=
  match n with
  | 0 => "0" | 1 => "1" | 2 => "2" | 3 => "3" | 4 => "4"
  | 5 => "5" | 6 => "6" | 7 => "7" | 8 => "8" | 9 => "9"
  | 10 => "a" | 11 => "b" | 12 => "c" | 13 => "d" | 14 => "e"
  | _ => "f"

/-- serde_json escaping of one character inside a JSON string: quote and
backslash are backslash-escaped, control characters below 0x20 use the
short escapes or a lowercase 4-digit unicode escape, everything else is
emitted unchanged. -/
def escapeJsonChar (c : Char) : String :=
  if c = '"' then "\\\""
  else if c = '\\' then "\\\\"
  else if c.toNat < 0x20 then
    match c.toNat with
    | 8 => "\\b"
    | 9 => "\\t"
    | 10 => "\\n"
    | 12 => "\\f"
    | 13 => "\\r"
    | n => "\\u00" ++ hexDigit (n / 16) ++ hexDigit (n % 16)
  else String.singleton c

/-- serde_json serialization of a Rust String as a JSON string literal. -/
def jsonString (s : String) : String :=
  "\"" ++ String.join (s.data.map escapeJsonChar) ++ "\""

/-- serde_json serialization of the ApiError struct of mod.rs, whose one
field is named error: the uniform error envelope. -/
def apiErrorJson (errMsg : String) : String :=
  "\x7b\"error\":" ++ jsonString errMsg ++ "\x7d"

/-- An HTTP response: numeric status code, header list, string body. -/
structure HttpResponse where
  status : Nat
  headers : List (String × String)
  body : String
deriving DecidableEq, Repr

/-- get_error_response of mod.rs.  The Rust function is generic over any
error value and only uses its Debug formatting; the embedding therefore
takes that formatted string.  It unconditionally builds a response with
status 500 (http.StatusCode.INTERNAL_SERVER_ERROR), a JSON content type
header, and the serialized ApiError envelope as body.  The serde_json
unwrap cannot fail for a struct of one string field and the builder
unwrap cannot fail for this fixed status and header, so the embedding is
total. -/
def get_error_response (errDebug : String) : HttpResponse :=
  { status := 500,
    headers := [("content-type", "application/json")],
    body := apiErrorJson errDebug }

/-- A status code is 4xx-equivalent (client-facing error class). -/
def is4xx (status : Nat) : Prop := 400 ≤ status ∧ status < 500

instance (s : Nat) : Decidable (is4xx s) := by
  unfold is4xx; infer_instance

/-! ### The static files server -/

/-- Contents of one bundled file, tracked by UTF-8 validity: utf8 s is a
byte string that decodes to the text s, nonUtf8 bs is a byte string (its
raw bytes) that String.from_utf8 rejects.  This is the distinction the
handler in start_web_gui_static_files_server observes through
String.from_utf8: raw byte identity is preserved by both constructors. -/
inductive FileBytes
  | utf8 (s : String)
  | nonUtf8 (raw : List Nat)
deriving DecidableEq, Repr

/-- Rust String.from_utf8 on the byte-level model: succeeds exactly on
valid UTF-8 contents. -/
def fromUtf8 : FileBytes → Option String
  | .utf8 s => some s
  | .nonUtf8 _ => none

/-- include_dir get_file: first bundled file with the requested name. -/
def getFile (dir : List (String × FileBytes)) (name : String) :
    Option FileBytes :=
  (dir.find? (fun p => p.1 == name)).map (fun p => p.2)

/-- Does a character list start with the pattern list. -/
def listStartsWith : List Char → List Char → Bool
  | [], _ => true
  | _ :: _, [] => false
  | p :: ps, c :: cs => p == c && listStartsWith ps cs

/-- Fuel-indexed worker for replaceList.  Each step consumes at least one
character of the subject, so fuel equal to the subject length never runs
out; the fuel only makes the recursion structural. -/
def replaceListFuel (pat rep : List Char) : Nat → List Char → List Char
  | 0, l => l
  | _ + 1, [] => []
  | fuel + 1, c :: rest =>
    if !pat.isEmpty && listStartsWith pat (c :: rest) then
      rep ++ replaceListFuel pat rep fuel (rest.drop (pat.length - 1))
    else
      c :: replaceListFuel pat rep fuel rest

/-- Replace every non-overlapping occurrence of a nonempty pattern, left
to right, in a character list (the behaviour of Rust str.replace for the
nonempty literal pattern used by the handler). -/
def replaceList (pat rep l : List Char) : List Char :=
  replaceListFuel pat rep l.length l

/-- Rust str.replace on the String level. -/
def strReplace (s pat rep : String) : String :=
  ⟨replaceList pat.data rep.data s.data⟩

/-- The placeholder token substituted in index.html.  The braces of the
literal are written with escapes. -/
def apiHostToken : String := "\x7b#api_host#\x7d"

/-- Body computation of the closure in start_web_gui_static_files_server
for a GET request whose tail path is tailStr, over the bundled directory
dir and the rendered api address apiHost.  Mirrors the source: is_index
is whether the tail is index.html; a missing file forces is_index and
falls back to the bundled index.html, whose lookup is unwrapped (none
here models that panic); an index body is UTF-8 decoded by an unwrap
(none models that panic too) and the placeholder token is replaced by
the api address before serving. -/
def staticFileBody (dir : List (String × FileBytes)) (apiHost : String)
    (tailStr : String) : Option FileBytes :=
  let isIndex0 := tailStr == "index.html"
  let fetched : Option (Bool × FileBytes) :=
    match getFile dir tailStr with
    | some file => some (isIndex0, file)
    | none =>
      match getFile dir "index.html" with
      | some indexHtml => some (true, indexHtml)
      | none => none
  match fetched with
  | none => none
  | some (isIndex, fileContents) =>
    if isIndex then
      match fromUtf8 fileContents with
      | none => none
      | some indexUtf8 =>
        some (.utf8 (strReplace indexUtf8 apiHostToken apiHost))
    else
      some fileContents

/-! ### The CA certificate route -/

/-- Response built by the map closure of the certificate route: default
builder status 200, the fixed content disposition header, and the
captured PEM string (cloned) as body.  The closure takes no request
data, so the response depends only on the PEM the server was started
with. -/
def caCertificateResponse (caCertificatePem : String) : HttpResponse :=
  { status := 200,
    headers := [("content-disposition",
                 "attachment; filename=privaxy_ca_certificate.pem;")],
    body := caCertificatePem }

/-! ### The web frontend filter search component (filterlists.rs) -/

/-- A parsed URL as produced by Url.parse; the embedding keeps its
serialized form and treats the parser itself as an external oracle
passed to update. -/
abbrev Url := String

namespace filterlists_api

/-- filterlists_api.Filter: a filter list offered by filterlists.com. -/
structure Filter where
  name : String
  description : String
  primary_view_url : Option String
  tag_ids : List Nat
  language_ids : List Nat
  license_id : Nat
deriving DecidableEq, Repr

/-- filterlists_api.FilterLanguage. -/
structure FilterLanguage where
  id : Nat
  name : String
deriving DecidableEq, Repr

/-- filterlists_api.FilterLicense. -/
structure FilterLicense where
  id : Nat
  name : String
deriving DecidableEq, Repr

/-- filterlists_api.FilterTag. -/
structure FilterTag where
  id : Nat
  name : String
deriving DecidableEq, Repr

end filterlists_api

namespace filters

/-- crate.filters.FilterGroup as used by the component.  The name Filter
of the Rust type is taken in Lean by Mathlib, so the types of the
frontend filters module live in a filters namespace matching their Rust
module path. -/
inductive FilterGroup
  | Ads
  | Privacy
  | Malware
  | Social
  | Regional
deriving DecidableEq, Repr

/-- crate.filters.Filter as stored in the local FilterConfiguration; the
component constructs it with Filter.new(title, group, url) and reads its
title field. -/
structure Filter where
  title : String
  group : FilterGroup
  url : String
deriving DecidableEq, Repr

/-- Filter.new of the frontend filters module. -/
def Filter.new (title : String) (group : FilterGroup) (url : String) :
    Filter :=
  { title := title, group := group, url := url }

/-- FilterConfiguration: the list of active filters. -/
abbrev FilterConfiguration := List Filter

/-- AddFilterRequest: the JSON body sent to POST and DELETE /filters. -/
structure AddFilterRequest where
  title : String
  group : FilterGroup
  url : Url
deriving DecidableEq, Repr

/-- AddFilterRequest.new of the frontend filters module. -/
def AddFilterRequest.new (title : String) (group : FilterGroup)
    (url : Url) : AddFilterRequest :=
  { title := title, group := group, url := url }

end filters

open filters

/-- SearchFilterMessage of filterlists.rs. -/
inductive SearchFilterMessage
  | Open
  | Close
  | FilterChanged (query : String)
  | AddFilter (filter : filterlists_api.Filter)
  | RemoveFilter (filter : filterlists_api.Filter)
  | LoadFilters
  | FiltersLoaded (filters : List filterlists_api.Filter)
  | Error (error : String)
  | NextPage
  | PreviousPage
  | LanguagesLoaded (langs : List filterlists_api.FilterLanguage)
  | LicensesLoaded (licenses : List filterlists_api.FilterLicense)
  | TagsLoaded (tags : List filterlists_api.FilterTag)
deriving DecidableEq, Repr

/-- Side effects the update function performs besides mutating the
component state: messages sent back to the component, HTTP requests
spawned against the privaxy API, and the filterlists.com loading task. -/
inductive Effect
  | sendMessage (msg : SearchFilterMessage)
  | httpPost (body : AddFilterRequest)
  | httpDelete (body : AddFilterRequest)
  | spawnLoadFilters
deriving DecidableEq, Repr

/-- State of the SearchFilterList component.  The link field of the Rust
struct is the component handle used only to emit messages; emissions are
modelled as Effect values instead. -/
structure SearchFilterList where
  is_open : Bool
  filters : List filterlists_api.Filter
  filter_query : String
  loading : Bool
  languages : List filterlists_api.FilterLanguage
  licenses : List filterlists_api.FilterLicense
  tags : List filterlists_api.FilterTag
  current_page : Nat
  results_per_page : Nat
  active_filters : FilterConfiguration
deriving DecidableEq, Repr

/-- Props of the component. -/
structure Props where
  filter_configuration : FilterConfiguration
deriving DecidableEq, Repr

/-- FILTER_TAG_GROUPS of filterlists.rs. -/
def FILTER_TAG_GROUPS : List String := ["ads", "privacy", "malware", "social"]

/-- SearchFilterList.create: the initial component state. -/
def SearchFilterList.create (props : Props) : SearchFilterList :=
  { is_open := false,
    filters := [],
    languages := [],
    licenses := [],
    tags := [],
    filter_query := "",
    loading := true,
    current_page := 1,
    results_per_page := 10,
    active_filters := props.filter_configuration }

/-- The group computation of the AddFilter branch: the first tag of the
component state whose id the filter carries and whose name is one of the
four known group names, mapped to its FilterGroup, defaulting to
Regional. -/
def groupFromTags (tags : List filterlists_api.FilterTag)
    (filter : filterlists_api.Filter) : FilterGroup :=
  (((tags.filter (fun tag =>
        filter.tag_ids.contains tag.id
          && FILTER_TAG_GROUPS.contains tag.name)).map
      (fun tag =>
        match tag.name with
        | "ads" => FilterGroup.Ads
        | "privacy" => FilterGroup.Privacy
        | "malware" => FilterGroup.Malware
        | "social" => FilterGroup.Social
        | _ => FilterGroup.Regional)).head?).getD FilterGroup.Regional

/-- Total pages as computed in the NextPage guard.  The source computes
ceil(filters.len / results_per_page) in f64; the embedding uses the
exact natural ceiling division (the claims proved here do not depend on
this value, only on the fact that NextPage increments by at most one). -/
def totalPagesOf (numFilters resultsPerPage : Nat) : Nat :=
  (numFilters + resultsPerPage - 1) / resultsPerPage

/-- SearchFilterList.update.  parse_url is the external Url.parse
oracle: none models a parse error (the Err branch of the source, which
logs and returns false), some a successfully parsed URL.  The result is
none exactly when the source panics: the AddFilter and RemoveFilter
branches unwrap the primary_view_url option before parsing.  Otherwise
the result carries the new state, the boolean the Rust method returns,
and the effects performed. -/
def SearchFilterList.update (parse_url : String → Option Url)
    (st : SearchFilterList) (msg : SearchFilterMessage) :
    Option (SearchFilterList × Bool × List Effect) :=
  match msg with
  | .Open =>
    some ({ st with is_open := true }, true,
          [.sendMessage .LoadFilters])
  | .Close => some ({ st with is_open := false }, true, [])
  | .FilterChanged query =>
    some ({ st with filter_query := query }, true, [])
  | .AddFilter filter =>
    match filter.primary_view_url with
    | none => none
    | some viewUrl =>
      match parse_url viewUrl with
      | none => some (st, false, [])
      | some parsedUrl =>
        let group := groupFromTags st.tags filter
        let requestBody := AddFilterRequest.new filter.name group parsedUrl
        some ({ st with active_filters :=
                  st.active_filters
                    ++ [Filter.new filter.name FilterGroup.Malware ""] },
              true, [.httpPost requestBody])
  | .RemoveFilter filter =>
    match filter.primary_view_url with
    | none => none
    | some viewUrl =>
      match parse_url viewUrl with
      | none => some (st, false, [])
      | some parsedUrl =>
        let requestBody :=
          AddFilterRequest.new filter.name FilterGroup.Malware parsedUrl
        some (st, true, [.httpDelete requestBody])
  | .LoadFilters =>
    if st.loading then some (st, true, [.spawnLoadFilters])
    else some (st, true, [])
  | .FiltersLoaded filters =>
    some ({ st with filters := filters, loading := false }, true, [])
  | .LanguagesLoaded langs =>
    some ({ st with languages := langs }, true, [])
  | .LicensesLoaded licenses =>
    some ({ st with licenses := licenses }, true, [])
  | .TagsLoaded tags =>
    some ({ st with tags := tags }, true, [])
  | .Error _ =>
    some ({ st with loading := false }, true, [])
  | .NextPage =>
    if st.current_page < totalPagesOf st.filters.length st.results_per_page
    then some ({ st with current_page := st.current_page + 1 }, true, [])
    else some (st, true, [])
  | .PreviousPage =>
    if st.current_page > 1
    then some ({ st with current_page := st.current_page - 1 }, true, [])
    else some (st, true, [])

/-- Processing of a message sequence by repeated update calls; none if
any step panics. -/
def updateSeq (parse_url : String → Option Url)
    (st : SearchFilterList) :
    List SearchFilterMessage → Option SearchFilterList
  | [] => some st
  | msg :: rest =>
    match SearchFilterList.update parse_url st msg with
    | none => none
    | some (st2, _, _) => updateSeq parse_url st2 rest

/-! ### Theorems settling the claims -/

/-- Claim C1, counterexample: create_routes contains a PUT route on the
blocking-enabled path whose argument list does not include the
configuration save lock, so not every enumerated mutation-bearing
endpoint is supplied the save lock. -/
theorem C1_counterexample :
    create_routes.any (fun e =>
      e.path == "blocking-enabled" && e.method == Method.PUT
        && !(e.args.contains HandlerArg.configurationSaveLock)) = true := by
  decide

/-- Claim C1 as amended: every PUT, POST or DELETE route on the filters,
custom-filters and exclusions paths is supplied the configuration save
lock by the route construction, while the PUT route on blocking-enabled
is supplied the blocking-disabled toggle store and not the save lock. -/
theorem C1_save_lock_routes :
    (∀ e ∈ create_routes,
        (e.path = "filters" ∨ e.path = "custom-filters"
          ∨ e.path = "exclusions") →
        mutationEndpoint e = true →
        HandlerArg.configurationSaveLock ∈ e.args)
    ∧ (∀ e ∈ create_routes,
        e.path = "blocking-enabled" → e.method = Method.PUT →
        HandlerArg.blockingDisabledStore ∈ e.args
          ∧ HandlerArg.configurationSaveLock ∉ e.args) := by
  decide

/-- Witness for C1_save_lock_routes: the PUT filters route of
create_routes carries the save lock argument. -/
theorem C1_save_lock_routes_witness :
    HandlerArg.configurationSaveLock ∈
      [HandlerArg.bodyJson, HandlerArg.configurationUpdaterSender,
       HandlerArg.configurationSaveLock] :=
  C1_save_lock_routes.1
    { path := "filters", method := .PUT, wsUpgrade := false,
      handler := .changeFilterStatus,
      args := [.bodyJson, .configurationUpdaterSender,
               .configurationSaveLock] }
    (by decide) (Or.inl rfl) (by decide)

/-- Claim C2, counterexample: the shared error-response builder gives a
not-found style error the status 500, which is not a 4xx-equivalent
client-facing status. -/
theorem C2_counterexample :
    (get_error_response "FilterNotFoundError").status = 500
      ∧ ¬ is4xx (get_error_response "FilterNotFoundError").status := by
  exact ⟨rfl, by decide⟩

/-- Claim C2 as amended: every error value passed to get_error_response
produces a response with the uniform JSON envelope whose single field
error carries the human-readable message, a JSON content type, and the
fixed HTTP status 500; the builder never produces a 4xx status, so
validation and not-found errors routed through it also receive 500. -/
theorem C2_error_envelope (errDebug : String) :
    (get_error_response errDebug).status = 500
      ∧ ¬ is4xx (get_error_response errDebug).status
      ∧ (get_error_response errDebug).headers =
          [("content-type", "application/json")]
      ∧ (get_error_response errDebug).body =
          "\x7b\"error\":" ++ jsonString errDebug ++ "\x7d" := by
  exact ⟨rfl, by simp [get_error_response, is4xx], rfl, rfl⟩

/-- Claim C5: the events and statistics routes are websocket upgrades
rather than ordinary-body routes, each handing its telemetry handler a
clone of its own subscriber resource, and distinct connections receive
distinct clone instances of the same origin resource. -/
theorem C5_telemetry_ws_routes :
    (create_routes.filter (fun e => e.path == "events") =
      [{ path := "events", method := .GET, wsUpgrade := true,
         handler := .eventsWs,
         args := [.websocket, .eventsSenderClone] }])
    ∧ (create_routes.filter (fun e => e.path == "statistics") =
      [{ path := "statistics", method := .GET, wsUpgrade := true,
         handler := .statisticsWs,
         args := [.websocket, .statisticsStoreClone] }])
    ∧ (∀ n : Nat, eventsOnUpgrade n =
        { handler := .eventsWs, origin := .eventsSender, cloneId := n })
    ∧ (∀ n : Nat, statisticsOnUpgrade n =
        { handler := .statisticsWs, origin := .statisticsStore,
          cloneId := n })
    ∧ (∀ m n : Nat, (eventsOnUpgrade m = eventsOnUpgrade n ↔ m = n))
    ∧ (∀ m n : Nat,
        (statisticsOnUpgrade m = statisticsOnUpgrade n ↔ m = n)) := by
  refine ⟨by decide, by decide, fun n => rfl, fun n => rfl, ?_, ?_⟩
  · intro m n
    simp [eventsOnUpgrade, WsInvocation.mk.injEq]
  · intro m n
    simp [statisticsOnUpgrade, WsInvocation.mk.injEq]

/-- Claim C6: the cors policy start_web_gui_server wraps around the whole
route table allows any origin, exactly the methods GET, PUT, POST and
DELETE, and exactly the headers content-type, content-length and date. -/
theorem C6_cors_policy :
    start_web_gui_server.cors = serverCors
      ∧ serverCors.allowAnyOrigin = true
      ∧ serverCors.allowMethods = ["GET", "PUT", "POST", "DELETE"]
      ∧ serverCors.allowHeaders = ["content-type", "content-length", "date"]
      ∧ start_web_gui_server.routes = create_routes :=
  ⟨rfl, rfl, rfl, rfl, rfl⟩

/-- Claim C7: the certificate route is a GET route on the fixed path, and
for every PEM the server was started with, the response body is exactly
that PEM and the response carries the fixed content disposition header;
the closure takes no request data, so the response is independent of the
request. -/
theorem C7_ca_certificate (caCertificatePem : String) :
    (caCertificateResponse caCertificatePem).body = caCertificatePem
      ∧ (caCertificateResponse caCertificatePem).headers =
          [("content-disposition",
            "attachment; filename=privaxy_ca_certificate.pem;")]
      ∧ (caCertificateResponse caCertificatePem).status = 200
      ∧ ({ path := "privaxy_ca_certificate.pem", method := .GET,
           wsUpgrade := false, handler := .caCertificate,
           args := [.caCertificatePem] } : Endpoint) ∈ create_routes :=
  ⟨rfl, rfl, rfl, by decide⟩

/-- Claim C3, counterexample: the static file handler is not total.  A
request for a missing asset over a bundle lacking index.html hits the
unwrap of the index.html lookup, and a request for an index.html whose
bundled bytes are not valid UTF-8 hits the unwrap of the decode; both
panic, modelled as none. -/
theorem C3_counterexample :
    staticFileBody [("app.css", FileBytes.utf8 "body")] "127.0.0.1:8200"
        "missing.js" = none
      ∧ staticFileBody [("index.html", FileBytes.nonUtf8 [255])]
        "127.0.0.1:8200" "index.html" = none :=
  ⟨rfl, rfl⟩

/-- Claim C3 as amended: provided the bundled directory contains an
index.html whose bytes are valid UTF-8, the static file handler is total
on every request path (no request panics); failures remain scoped to the
single request.  The error-response builder is total for every error
value by construction. -/
theorem C3_no_panic (dir : List (String × FileBytes))
    (apiHost tailStr s : String)
    (h : getFile dir "index.html" = some (FileBytes.utf8 s)) :
    (staticFileBody dir apiHost tailStr).isSome := by
  unfold staticFileBody
  by_cases htail : tailStr = "index.html"
  · subst htail
    simp [h, fromUtf8]
  · cases hfind : getFile dir tailStr with
    | none => simp [hfind, h, fromUtf8]
    | some file => simp [hfind, htail]

/-- Witness for C3_no_panic: over a bundle holding a valid index.html, a
request for a missing path succeeds. -/
theorem C3_no_panic_witness :
    (staticFileBody [("index.html", FileBytes.utf8 "hello")] "1.2.3.4:8200"
      "missing.js").isSome :=
  C3_no_panic [("index.html", FileBytes.utf8 "hello")] "1.2.3.4:8200"
    "missing.js" "hello" rfl

/-- Claim C4: a GET for a bundled file other than index.html is answered
with exactly the bytes of that file; a GET for index.html itself, or for a
path naming no bundled file, is answered with the bundled index.html
with every occurrence of the api host placeholder token replaced by the
externally-reachable api address. -/
theorem C4_static_bodies (dir : List (String × FileBytes))
    (apiHost tailStr : String) :
    (∀ c, getFile dir tailStr = some c → tailStr ≠ "index.html" →
        staticFileBody dir apiHost tailStr = some c)
    ∧ (∀ s, getFile dir "index.html" = some (FileBytes.utf8 s) →
        (tailStr = "index.html" ∨ getFile dir tailStr = none) →
        staticFileBody dir apiHost tailStr =
          some (FileBytes.utf8 (strReplace s apiHostToken apiHost))) := by
  constructor
  · intro c hfind htail
    unfold staticFileBody
    simp [hfind, htail]
  · intro s hidx hcase
    unfold staticFileBody
    rcases hcase with htail | hmiss
    · subst htail
      simp [hidx, fromUtf8]
    · simp [hmiss, hidx, fromUtf8]

/-- Witness for C4_static_bodies: over a concrete bundle, the asset
app.js is served byte for byte, and a request for an unbundled path is
served the index.html text with the placeholder token substituted by the
api address. -/
theorem C4_static_bodies_witness :
    staticFileBody
        [("app.js", FileBytes.nonUtf8 [1, 2, 3]),
         ("index.html", FileBytes.utf8 "host=\x7b#api_host#\x7d;")]
        "1.2.3.4:8200" "app.js" = some (FileBytes.nonUtf8 [1, 2, 3])
      ∧ staticFileBody
        [("app.js", FileBytes.nonUtf8 [1, 2, 3]),
         ("index.html", FileBytes.utf8 "host=\x7b#api_host#\x7d;")]
        "1.2.3.4:8200" "landing" =
          some (FileBytes.utf8 "host=1.2.3.4:8200;") := by
  constructor
  · exact (C4_static_bodies _ "1.2.3.4:8200" "app.js").1
      (FileBytes.nonUtf8 [1, 2, 3]) rfl (by decide)
  · have h := (C4_static_bodies
      [("app.js", FileBytes.nonUtf8 [1, 2, 3]),
       ("index.html", FileBytes.utf8 "host=\x7b#api_host#\x7d;")]
      "1.2.3.4:8200" "landing").2 "host=\x7b#api_host#\x7d;" rfl
      (Or.inr rfl)
    rw [h]
    rfl

/-- Claim C8: for AddFilter and RemoveFilter messages, update unwraps the
primary_view_url option before URL parsing, so it panics (none) whenever
that field is None, and is total (some result, whatever the parse
outcome) whenever the field is Some. -/
theorem C8_primary_view_url_unwrap (parse_url : String → Option Url)
    (st : SearchFilterList) (filter : filterlists_api.Filter) :
    (filter.primary_view_url = none →
        SearchFilterList.update parse_url st (.AddFilter filter) = none
          ∧ SearchFilterList.update parse_url st (.RemoveFilter filter)
              = none)
    ∧ (∀ u, filter.primary_view_url = some u →
        (SearchFilterList.update parse_url st (.AddFilter filter)).isSome
          ∧ (SearchFilterList.update parse_url st
              (.RemoveFilter filter)).isSome) := by
  constructor
  · intro hnone
    constructor
    · simp [SearchFilterList.update, hnone]
    · simp [SearchFilterList.update, hnone]
  · intro u hsome
    constructor
    · cases hparse : parse_url u <;>
        simp [SearchFilterList.update, hsome, hparse]
    · cases hparse : parse_url u <;>
        simp [SearchFilterList.update, hsome, hparse]

/-- Witness for C8_primary_view_url_unwrap: over the initial state, an
AddFilter whose filter has no primary_view_url panics, and one with a
primary_view_url yields a result. -/
theorem C8_primary_view_url_unwrap_witness :
    SearchFilterList.update (fun _ => none)
        (SearchFilterList.create { filter_configuration := [] })
        (.AddFilter
          { name := "f", description := "", primary_view_url := none,
            tag_ids := [], language_ids := [], license_id := 0 }) = none
      ∧ (SearchFilterList.update (fun _ => none)
          (SearchFilterList.create { filter_configuration := [] })
          (.AddFilter
            { name := "f", description := "",
              primary_view_url := some "https://x",
              tag_ids := [], language_ids := [],
              license_id := 0 })).isSome :=
  ⟨((C8_primary_view_url_unwrap (fun _ => none)
      (SearchFilterList.create { filter_configuration := [] })
      { name := "f", description := "", primary_view_url := none,
        tag_ids := [], language_ids := [], license_id := 0 }).1 rfl).1,
   ((C8_primary_view_url_unwrap (fun _ => none)
      (SearchFilterList.create { filter_configuration := [] })
      { name := "f", description := "",
        primary_view_url := some "https://x",
        tag_ids := [], language_ids := [],
        license_id := 0 }).2 "https://x" rfl).1⟩

/-- Claim C9: when AddFilter is handled with a parseable
primary_view_url, the entry appended to the local active_filters list is
built with group Malware and an empty URL string, while the request body
posted to the filters endpoint carries the group computed from the tags
and the parsed URL. -/
theorem C9_add_filter_local_entry (parse_url : String → Option Url)
    (st : SearchFilterList) (filter : filterlists_api.Filter)
    (u : String) (parsedUrl : Url)
    (hsome : filter.primary_view_url = some u)
    (hparse : parse_url u = some parsedUrl) :
    SearchFilterList.update parse_url st (.AddFilter filter) =
      some ({ st with active_filters :=
                st.active_filters
                  ++ [Filter.new filter.name FilterGroup.Malware ""] },
            true,
            [Effect.httpPost
              (AddFilterRequest.new filter.name
                (groupFromTags st.tags filter) parsedUrl)]) := by
  simp [SearchFilterList.update, hsome, hparse]

/-- Witness for C9_add_filter_local_entry: a filter tagged ads is posted
with group Ads in the request body, yet the locally appended entry has
group Malware and an empty URL. -/
theorem C9_add_filter_local_entry_witness :
    SearchFilterList.update (fun s => some s)
        { is_open := true, filters := [], filter_query := "",
          loading := false, languages := [], licenses := [],
          tags := [{ id := 3, name := "ads" }],
          current_page := 1, results_per_page := 10,
          active_filters := [] }
        (.AddFilter
          { name := "EasyList", description := "",
            primary_view_url := some "https://x/list.txt",
            tag_ids := [3], language_ids := [], license_id := 0 }) =
      some ({ is_open := true, filters := [], filter_query := "",
              loading := false, languages := [], licenses := [],
              tags := [{ id := 3, name := "ads" }],
              current_page := 1, results_per_page := 10,
              active_filters :=
                [{ title := "EasyList", group := FilterGroup.Malware,
                   url := "" }] },
            true,
            [Effect.httpPost
              { title := "EasyList", group := FilterGroup.Ads,
                url := "https://x/list.txt" }]) := by
  have h := C9_add_filter_local_entry (fun s => some s)
    { is_open := true, filters := [], filter_query := "",
      loading := false, languages := [], licenses := [],
      tags := [{ id := 3, name := "ads" }],
      current_page := 1, results_per_page := 10,
      active_filters := [] }
    { name := "EasyList", description := "",
      primary_view_url := some "https://x/list.txt",
      tag_ids := [3], language_ids := [], license_id := 0 }
    "https://x/list.txt" "https://x/list.txt" rfl rfl
  rw [h]
  rfl

/-- One update step preserves a positive current_page: NextPage only
increments, PreviousPage decrements only above one, and no other message
touches the field. -/
theorem update_step_page_pos (parse_url : String → Option Url)
    (st : SearchFilterList) (msg : SearchFilterMessage)
    (st2 : SearchFilterList) (b : Bool) (effs : List Effect)
    (h : SearchFilterList.update parse_url st msg = some (st2, b, effs))
    (hpage : 1 ≤ st.current_page) : 1 ≤ st2.current_page := by
  cases msg <;> simp only [SearchFilterList.update] at h <;>
    (try (repeat' split at h)) <;>
    (try cases h) <;> simp_all <;> omega

/-- Every state reached from a positive current_page by a panic-free
message sequence keeps current_page positive. -/
theorem updateSeq_page_pos (parse_url : String → Option Url) :
    ∀ (msgs : List SearchFilterMessage) (st st2 : SearchFilterList),
      1 ≤ st.current_page → updateSeq parse_url st msgs = some st2 →
      1 ≤ st2.current_page := by
  intro msgs
  induction msgs with
  | nil =>
    intro st st2 hpage h
    simp only [updateSeq] at h
    cases h
    exact hpage
  | cons msg rest ih =>
    intro st st2 hpage h
    simp only [updateSeq] at h
    cases hstep : SearchFilterList.update parse_url st msg with
    | none => rw [hstep] at h; cases h
    | some res =>
      obtain ⟨stMid, b, effs⟩ := res
      rw [hstep] at h
      exact ih stMid st2
        (update_step_page_pos parse_url st msg stMid b effs hstep hpage) h

/-- Claim C10: create initialises current_page to one, and every state
reached from the created state by any panic-free message sequence
satisfies the invariant that current_page is at least one. -/
theorem C10_current_page_invariant (parse_url : String → Option Url)
    (props : Props) (msgs : List SearchFilterMessage) :
    (SearchFilterList.create props).current_page = 1
      ∧ ∀ st, updateSeq parse_url (SearchFilterList.create props) msgs
            = some st → 1 ≤ st.current_page := by
  refine ⟨rfl, fun st h => ?_⟩
  exact updateSeq_page_pos parse_url msgs (SearchFilterList.create props)
    st (by simp [SearchFilterList.create]) h

/-- Witness for C10_current_page_invariant: running a NextPage and two
PreviousPage messages from the created state leaves current_page at
least one (here the guards block every change, so the state is the
created one). -/
theorem C10_current_page_invariant_witness :
    updateSeq (fun _ => none)
        (SearchFilterList.create { filter_configuration := [] })
        [SearchFilterMessage.NextPage, SearchFilterMessage.PreviousPage,
         SearchFilterMessage.PreviousPage]
      = some (SearchFilterList.create { filter_configuration := [] })
      ∧ 1 ≤ (SearchFilterList.create
          { filter_configuration := [] }).current_page :=
  ⟨rfl,
   (C10_current_page_invariant (fun _ => none)
      { filter_configuration := [] }
      [SearchFilterMessage.NextPage, SearchFilterMessage.PreviousPage,
       SearchFilterMessage.PreviousPage]).2
     (SearchFilterList.create { filter_configuration := [] }) rfl⟩
